import Mathlib

/-!
Shallow embedding of the alert scheduling and threshold-evaluation engine of
`src/telbotScript_v3.py` (a Telegram exchange-rate bot), together with proofs
about its behaviour.

Modelling conventions:
* Exchange rates and thresholds are modelled as rationals (`ℚ`); the Python
  code only parses decimal literals, divides, and compares rates, and every
  claim under study concerns ordering, not binary floating-point rounding.
* A Python dict of rates is an association list `List (String × ℚ)`;
  `dict.get` is `dictGet`.
* The provider HTTP interaction of `fetch_exchange_rates` is abstracted into a
  `ProviderResult`: either the request raised `requests.RequestException`
  (caught by the function) or it delivered a JSON body whose `"rates"` field
  is a dict.  An uncaught Python exception (TypeError from `"N/A" / x`,
  ZeroDivisionError) is an `Except.error`.
* The job queue of `python-telegram-bot` is modelled by an explicit job list;
  `run_repeating` appends a job carrying a copy of the `(pair, threshold)`
  tuple (the tuple is immutable and `/alert` rebinds `user_data["alerts"]`,
  so the job's data never changes afterwards).  `job.schedule_removal()`
  removes the job; an exception escaping the callback is logged by the
  framework and leaves the job scheduled.
-/

namespace TelBot

/-- A rate snapshot as built by `fetch_exchange_rates`: a Python dict from
currency-pair strings to rates, modelled as an association list. -/
abbrev Snapshot := List (String × ℚ)

/-- Python `d.get(k)` (default `None`) on a dict of rates: the value of the
first binding of `k`, if any. -/
def dictGet (d : List (String × ℚ)) (k : String) : Option ℚ :=
  (d.find? (fun kv => kv.1 == k)).map (fun kv => kv.2)

/-- Outcome of the HTTP GET inside `fetch_exchange_rates`: either the request
machinery raised `requests.RequestException` (which the function catches), or
a response arrived whose parsed `"rates"` field is the given dict. -/
inductive ProviderResult where
  | requestError
  | ok (rates : List (String × ℚ))

/-- An uncaught Python exception escaping `fetch_exchange_rates`. -/
inductive PyError where
  | typeError
  | zeroDivisionError
deriving DecidableEq

/-- Embeds `fetch_exchange_rates` (lines 18-32).  On `RequestException` it
returns `None`.  Otherwise it builds
`{"USD/NGN": rates.get("NGN","N/A"), "GBP/NGN": rates.get("NGN","N/A")/rates.get("GBP",1), "EUR/NGN": rates.get("NGN","N/A")/rates.get("EUR",1)}`:
when `"NGN"` is absent the division of the string `"N/A"` by a number raises
an uncaught `TypeError`, and a zero `"GBP"`/`"EUR"` rate raises an uncaught
`ZeroDivisionError` (only `RequestException` is caught). -/
def fetch_exchange_rates (r : ProviderResult) : Except PyError (Option Snapshot) :=
  match r with
  | .requestError => .ok none
  | .ok rates =>
    match dictGet rates "NGN" with
    | none => .error .typeError
    | some n =>
      let g := (dictGet rates "GBP").getD 1
      let e := (dictGet rates "EUR").getD 1
      if g = 0 then .error .zeroDivisionError
      else if e = 0 then .error .zeroDivisionError
      else .ok (some [("USD/NGN", n), ("GBP/NGN", n / g), ("EUR/NGN", n / e)])

/-- Python `str.upper()` on one ASCII character. -/
def upperChar (c : Char) : Char :=
  if 'a' ≤ c ∧ c ≤ 'z' then Char.ofNat (c.toNat - 32) else c

/-- Python `str.upper()` for ASCII strings (all strings the bot handles are
ASCII command text). -/
def upperStr (s : String) : String :=
  ⟨s.data.map upperChar⟩

/-- Python `float(s)` restricted to the decimal literals relevant here:
optional sign, then digits with at most one decimal point (at least one digit
overall).  Returns `none` where `float` raises `ValueError`. -/
def parseFloat (s : String) : Option ℚ :=
  let body : Option (Bool × List Char) :=
    match s.data with
    | '-' :: t => some (true, t)
    | '+' :: t => some (false, t)
    | [] => none
    | t => some (false, t)
  match body with
  | none => none
  | some (neg, t) =>
    let ip := t.takeWhile (fun c => c ≠ '.')
    let rest := t.dropWhile (fun c => c ≠ '.')
    let mag : Option ℚ :=
      match rest with
      | [] =>
        if !ip.isEmpty && ip.all Char.isDigit then
          some ((ip.foldl (fun a c => a * 10 + (c.toNat - 48)) 0 : ℕ) : ℚ)
        else none
      | _ :: fp =>
        if (!ip.isEmpty || !fp.isEmpty) && ip.all Char.isDigit && fp.all Char.isDigit then
          some (((ip.foldl (fun a c => a * 10 + (c.toNat - 48)) 0 : ℕ) : ℚ) +
                ((fp.foldl (fun a c => a * 10 + (c.toNat - 48)) 0 : ℕ) : ℚ) / (10 ^ fp.length))
        else none
    mag.map (fun q => if neg then -q else q)

/-- Reply sent by the `/alert` handler. -/
inductive AlertReply where
  | set (pair : String) (threshold : ℚ)
  | usage
deriving DecidableEq

/-- Embeds the `/alert` command handler `alert` (lines 105-117).  Input: the
message text already split on whitespace, and the current
`context.user_data["alerts"]` value.  `user_message[1]` or `user_message[2]`
missing raises `IndexError`, an unparsable threshold raises `ValueError`; both
are caught and answered with the usage text, leaving `user_data` unchanged.
On success `user_data["alerts"]` is rebound to `(pair.upper(), float(th))`. -/
def alertCmd (user_message : List String) (userAlert : Option (String × ℚ)) :
    Option (String × ℚ) × AlertReply :=
  match user_message[1]? with
  | none => (userAlert, .usage)
  | some pairTok =>
    match user_message[2]? with
    | none => (userAlert, .usage)
    | some thTok =>
      match parseFloat thTok with
      | none => (userAlert, .usage)
      | some q => (some (upperStr pairTok, q), .set (upperStr pairTok) q)

/-- A scheduled repeating job as created by `context.job_queue.run_repeating`
in `button_handler` (lines 75-83): its `data` dict holds the chat id and the
`(currency_pair, threshold_rate)` tuple captured at scheduling time. -/
structure Job where
  user_id : ℕ
  pair : String
  threshold : ℚ
deriving DecidableEq

/-- A message sent by `context.bot.send_message` in `check_alerts`
(lines 128-131), recorded with the data interpolated into its text. -/
structure Notification where
  user_id : ℕ
  pair : String
  rate : ℚ
  threshold : ℚ
deriving DecidableEq

/-- Outcome of the `context.bot.send_message` call: it either returns
normally or raises (network/API error). -/
inductive SendOutcome where
  | delivered
  | deliveryError
deriving DecidableEq

/-- Embeds one invocation of the job callback `check_alerts` (lines 120-132)
for a fetch that did not raise.  Inputs: the job, the value returned by
`fetch_exchange_rates` (`none` models the caught-`RequestException` return of
`None`), and the outcome of `send_message` should it be reached.  Returns
(was `job.schedule_removal()` executed, the attempted notification with its
delivery outcome, if `send_message` was reached).  The source guards with
`if rates:` (a `None`/falsy snapshot skips the body), looks the pair up with
`rates.get(currency_pair, None)`, and tests
`if current_rate and current_rate >= threshold_rate:` — Python truthiness, so
a missing pair or a rate of exactly `0` never triggers.  `send_message` is
awaited *before* `job.schedule_removal()`, so a raising send skips removal
and the exception escapes the callback (the framework logs it and keeps the
job scheduled). -/
def check_alerts (j : Job) (fetched : Option Snapshot) (send : SendOutcome) :
    Bool × Option (Notification × SendOutcome) :=
  match fetched with
  | none => (false, none)
  | some rates =>
    match dictGet rates j.pair with
    | none => (false, none)
    | some current_rate =>
      if current_rate != 0 && decide (j.threshold ≤ current_rate) then
        (match send with | .delivered => true | .deliveryError => false,
         some (⟨j.user_id, j.pair, current_rate, j.threshold⟩, send))
      else (false, none)

/-- Runs one job over a list of ticks, numbering ticks from `i`.  Each tick
supplies the fetch value and the delivery outcome of a send, should one be
attempted.  Collects every attempted notification with its tick index and
outcome; a tick on which `job.schedule_removal()` ran is the job's last. -/
def runJobFrom (j : Job) (i : ℕ) :
    List (Option Snapshot × SendOutcome) → List (ℕ × Notification × SendOutcome)
  | [] => []
  | (f, s) :: rest =>
    ((check_alerts j f s).2.map (fun n => (i, n))).toList ++
      (if (check_alerts j f s).1 then [] else runJobFrom j (i + 1) rest)

/-- One tick of `check_alerts` driven by a raw provider interaction: when
`fetch_exchange_rates` raises (uncaught `TypeError`/`ZeroDivisionError`), the
callback aborts before sending or removing anything, and the framework keeps
the job scheduled. -/
def tickLive (j : Job) (pr : ProviderResult) (s : SendOutcome) :
    Bool × Option (Notification × SendOutcome) :=
  match fetch_exchange_rates pr with
  | .error _ => (false, none)
  | .ok f => check_alerts j f s

/-- Runs one job over a list of raw provider interactions. -/
def runJobLive (j : Job) : List (ProviderResult × SendOutcome) → List (Notification × SendOutcome)
  | [] => []
  | (pr, s) :: rest =>
    (tickLive j pr s).2.toList ++ (if (tickLive j pr s).1 then [] else runJobLive j rest)

/-- The bot state a single chat observes: `context.user_data["alerts"]` (one
`(pair, threshold)` slot) and the list of jobs the job queue holds for this
chat. -/
structure BotState where
  userAlert : Option (String × ℚ)
  jobs : List Job
deriving DecidableEq

/-- Reply of the `schedule_alert` branch of `button_handler`. -/
inductive ScheduleReply where
  | started
  | noAlert
deriving DecidableEq

/-- Embeds the `schedule_alert` branch of `button_handler` (lines 72-88) with
the job queue available: if `"alerts" in context.user_data`, it calls
`run_repeating(check_alerts, ...)` with a fresh `data` dict capturing the
chat id and the current alert tuple, and replies that monitoring started;
otherwise it replies that no alert is set.  It neither checks for an
existing job for the same data nor cancels one. -/
def scheduleAlert (chat_id : ℕ) (st : BotState) : BotState × ScheduleReply :=
  match st.userAlert with
  | none => (st, .noAlert)
  | some (p, t) => ({ st with jobs := st.jobs ++ [⟨chat_id, p, t⟩] }, .started)

/-- A user interaction relevant to alert state: a `/alert` message (already
split on whitespace) or a press of the "Start Alert Monitoring" button. -/
inductive UserEvent where
  | alertMsg (words : List String)
  | scheduleBtn (chat_id : ℕ)

/-- Effect of one user interaction on the bot state: `/alert` runs `alertCmd`
on the user-data slot and leaves the job queue untouched; the button press
runs `scheduleAlert`. -/
def stepEvent (st : BotState) : UserEvent → BotState
  | .alertMsg w => ⟨(alertCmd w st.userAlert).1, st.jobs⟩
  | .scheduleBtn cid => (scheduleAlert cid st).1

/-- Folds a list of user interactions over the bot state. -/
def runEvents (st : BotState) (es : List UserEvent) : BotState :=
  es.foldl stepEvent st

/-- Modelled from the spec: "Trigger condition: `snapshot[pair] >= alert.threshold`
(non-strict; exact equality triggers)" — whether a snapshot satisfies the
trigger condition for a pair and threshold. -/
def specTrigger (pair : String) (T : ℚ) (s : Snapshot) : Bool :=
  match dictGet s pair with
  | some r => decide (T ≤ r)
  | none => false

/-- Modelled from the spec: the index of "the first tick whose snapshot
contains the alert's pair with a rate >= T", if any, counting from `i`. -/
def specFirstTriggerFrom (pair : String) (T : ℚ) (i : ℕ) : List Snapshot → Option ℕ
  | [] => none
  | s :: rest =>
    if specTrigger pair T s then some i else specFirstTriggerFrom pair T (i + 1) rest

/-- Modelled from the spec: the index of the first triggering tick, counting
from 0. -/
def specFirstTrigger (pair : String) (T : ℚ) (snaps : List Snapshot) : Option ℕ :=
  specFirstTriggerFrom pair T 0 snaps

end TelBot

namespace TelBot

example : parseFloat "-5" = some (-5) := by decide
example : parseFloat "850" = some 850 := by decide
example : parseFloat "abc" = none := by decide
example : upperStr "usd/Ngn" = "USD/NGN" := by decide
example : alertCmd ["/alert", "USD/NGN", "-5"] none =
    (some ("USD/NGN", -5), .set "USD/NGN" (-5)) := by decide
example : fetch_exchange_rates (.ok []) = .error .typeError := rfl
example : fetch_exchange_rates (.ok [("NGN", 800), ("GBP", 2), ("EUR", 4)]) =
    .ok (some [("USD/NGN", 800), ("GBP/NGN", (800 : ℚ) / 2), ("EUR/NGN", (800 : ℚ) / 4)]) := rfl
example : check_alerts ⟨1, "USD/NGN", 850⟩ (some [("USD/NGN", 860)]) .delivered =
    (true, some (⟨1, "USD/NGN", 860, 850⟩, .delivered)) := by decide
example : check_alerts ⟨1, "USD/NGN", 850⟩ (some [("USD/NGN", 860)]) .deliveryError =
    (false, some (⟨1, "USD/NGN", 860, 850⟩, .deliveryError)) := by decide
example : check_alerts ⟨1, "USD/NGN", 850⟩ none .delivered = (false, none) := by decide
example : runJobFrom ⟨1, "USD/NGN", 850⟩ 0
    [(some [("USD/NGN", 820)], .delivered), (some [("USD/NGN", 860)], .delivered),
     (some [("USD/NGN", 870)], .delivered)] =
    [(1, ⟨1, "USD/NGN", 860, 850⟩, .delivered)] := by decide
example : specFirstTrigger "USD/NGN" 850 [[("USD/NGN", 820)], [("USD/NGN", 860)]] = some 1 := by
  decide
example : runEvents ⟨none, []⟩
    [.alertMsg ["/alert", "usd/ngn", "850"], .scheduleBtn 7] =
    ⟨some ("USD/NGN", 850), [⟨7, "USD/NGN", 850⟩]⟩ := by decide

/-- A successful `dictGet` returns the value of some binding of the dict. -/
theorem dictGet_mem (d : List (String × ℚ)) (k : String) (r : ℚ)
    (h : dictGet d k = some r) : ∃ kv ∈ d, kv.2 = r := by
  unfold dictGet at h
  cases hf : d.find? (fun kv => kv.1 == k) with
  | none => rw [hf] at h; simp at h
  | some kv =>
    rw [hf] at h
    simp only [Option.map_some', Option.some.injEq] at h
    exact ⟨kv, List.mem_of_find?_eq_some hf, h⟩

/-- Every invocation of `check_alerts` either does nothing observable, or
attempts exactly one send, removing the job exactly when the send returned
normally. -/
theorem check_alerts_eq_cases (j : Job) (f : Option Snapshot) (s : SendOutcome) :
    check_alerts j f s = (false, none) ∨
    ∃ n, check_alerts j f s =
      ((match s with | .delivered => true | .deliveryError => false), some (n, s)) := by
  cases f with
  | none => exact .inl rfl
  | some rates =>
    cases hd : dictGet rates j.pair with
    | none => left; simp [check_alerts, hd]
    | some r =>
      by_cases hcond : (r != 0 && decide (j.threshold ≤ r)) = true
      · exact .inr ⟨⟨j.user_id, j.pair, r, j.threshold⟩, by simp [check_alerts, hd, hcond]⟩
      · left
        simp only [Bool.not_eq_true] at hcond
        simp [check_alerts, hd, hcond]

/-- C9: immediately after a successful `/alert user pair threshold`, the
stored alert's pair is the input pair uppercased and its threshold is the
parsed base-10 float of the input, exactly as written. -/
theorem alert_roundtrip_normalized (words : List String) (st : Option (String × ℚ))
    (p th : String) (q : ℚ)
    (h1 : words[1]? = some p) (h2 : words[2]? = some th)
    (hq : parseFloat th = some q) :
    (alertCmd words st).1 = some (upperStr p, q) := by
  simp [alertCmd, h1, h2, hq]

/-- Witness for `alert_roundtrip_normalized` at `/alert usd/ngn 850`. -/
theorem alert_roundtrip_normalized_witness :
    (alertCmd ["/alert", "usd/ngn", "850"] none).1 = some (upperStr "usd/ngn", 850) :=
  alert_roundtrip_normalized ["/alert", "usd/ngn", "850"] none "usd/ngn" "850" 850
    (by decide) (by decide) (by decide)

/-- C5 counterexample: `/alert USD/NGN -5` does not fail and does create an
alert — the stored state changes to `("USD/NGN", -5)` and the success reply
is sent, refuting "fails with InvalidInput and creates no Alert". -/
theorem negative_threshold_alert_created_cex :
    alertCmd ["/alert", "USD/NGN", "-5"] none =
      (some ("USD/NGN", -5), .set "USD/NGN" (-5)) := by decide

/-- C5 amended: `setAlert` performs no positivity validation — any parsable
threshold, non-positive included, is accepted and stored (uppercased pair,
parsed float) with the success reply; only a missing argument or an
unparsable number leaves the state unchanged. -/
theorem nonpositive_threshold_accepted (words : List String) (st : Option (String × ℚ))
    (p th : String) (q : ℚ)
    (h1 : words[1]? = some p) (h2 : words[2]? = some th)
    (hq : parseFloat th = some q) (_hq0 : q ≤ 0) :
    alertCmd words st = (some (upperStr p, q), .set (upperStr p) q) := by
  simp [alertCmd, h1, h2, hq]

/-- Witness for `nonpositive_threshold_accepted` at threshold `-5`. -/
theorem nonpositive_threshold_accepted_witness :
    alertCmd ["/alert", "USD/NGN", "-5"] none = (some ("USD/NGN", -5), .set "USD/NGN" (-5)) := by
  have h := nonpositive_threshold_accepted ["/alert", "USD/NGN", "-5"] none "USD/NGN" "-5" (-5)
    (by decide) (by decide) (by decide) (by decide)
  simpa [(by decide : upperStr "USD/NGN" = "USD/NGN")] using h

/-- C6 counterexample: with an alert set and a job already scheduled for the
same chat and pair, pressing "Start Alert Monitoring" again succeeds (reply
`started`, not an error) and starts a second job for the same (user, pair),
refuting "fails with AlreadyScheduled ... at most one active job". -/
theorem second_schedule_starts_second_job_cex :
    scheduleAlert 1 ⟨some ("USD/NGN", 850), [⟨1, "USD/NGN", 850⟩]⟩ =
      (⟨some ("USD/NGN", 850), [⟨1, "USD/NGN", 850⟩, ⟨1, "USD/NGN", 850⟩]⟩, .started) := by
  decide

/-- C6 amended: the schedule branch never reports `AlreadyScheduled`: whenever
an alert is set it unconditionally starts one more repeating job carrying the
current alert data, however many jobs already exist for that (user, pair). -/
theorem schedule_always_appends_job (chat_id : ℕ) (st : BotState) (p : String) (t : ℚ)
    (h : st.userAlert = some (p, t)) :
    scheduleAlert chat_id st = ({ st with jobs := st.jobs ++ [⟨chat_id, p, t⟩] }, .started) := by
  simp [scheduleAlert, h]

/-- Witness for `schedule_always_appends_job` on a state already holding a
job for the same pair. -/
theorem schedule_always_appends_job_witness :
    scheduleAlert 2 ⟨some ("USD/NGN", 850), [⟨2, "USD/NGN", 850⟩]⟩ =
      (⟨some ("USD/NGN", 850), [⟨2, "USD/NGN", 850⟩, ⟨2, "USD/NGN", 850⟩]⟩, .started) :=
  schedule_always_appends_job 2 ⟨some ("USD/NGN", 850), [⟨2, "USD/NGN", 850⟩]⟩ "USD/NGN" 850 rfl

/-- C7: a tick on which the rate fetch failed (caught `RequestException`,
`fetch_exchange_rates` returned `None`) is a complete no-op for the job: no
send is attempted, the job is not removed, and the remaining ticks behave
exactly as if they started the run — in particular a later tick whose rate
meets the threshold still fires. -/
theorem fetch_failure_tick_is_noop (j : Job) (i : ℕ) (s : SendOutcome)
    (rest : List (Option Snapshot × SendOutcome)) :
    runJobFrom j i ((none, s) :: rest) = runJobFrom j (i + 1) rest := by
  simp [runJobFrom, check_alerts]

/-- C3 counterexample: on a tick whose rate 900 meets the threshold 850 the
trigger condition holds and the send is attempted, but when the send raises
(`deliveryError`) the job is *not* removed (`job.schedule_removal()` on line
132 is sequenced after the `await` of line 128), refuting "removed from
active scheduling regardless of whether the notification delivery succeeds
or fails". -/
theorem removal_skipped_on_delivery_error_cex :
    (850 : ℚ) ≤ 900 ∧
    check_alerts ⟨1, "USD/NGN", 850⟩ (some [("USD/NGN", 900)]) .deliveryError =
      (false, some (⟨1, "USD/NGN", 900, 850⟩, .deliveryError)) := by decide

/-- C3 amended: on a tick where the trigger condition is met the notification
send is attempted, and the job is removed exactly when that send returns
normally; a raising send leaves the job scheduled, so it will evaluate (and
possibly send) again on later ticks. -/
theorem removal_iff_delivery_succeeded (j : Job) (rates : Snapshot) (r : ℚ)
    (h : dictGet rates j.pair = some r) (hr : r ≠ 0) (ht : j.threshold ≤ r) :
    check_alerts j (some rates) .delivered =
      (true, some (⟨j.user_id, j.pair, r, j.threshold⟩, .delivered)) ∧
    check_alerts j (some rates) .deliveryError =
      (false, some (⟨j.user_id, j.pair, r, j.threshold⟩, .deliveryError)) := by
  constructor <;> simp [check_alerts, h, hr, ht]

/-- Witness for `removal_iff_delivery_succeeded` at rate 900 against
threshold 850. -/
theorem removal_iff_delivery_succeeded_witness :
    check_alerts ⟨1, "USD/NGN", 850⟩ (some [("USD/NGN", 900)]) .delivered =
      (true, some (⟨1, "USD/NGN", 900, 850⟩, .delivered)) ∧
    check_alerts ⟨1, "USD/NGN", 850⟩ (some [("USD/NGN", 900)]) .deliveryError =
      (false, some (⟨1, "USD/NGN", 900, 850⟩, .deliveryError)) :=
  removal_iff_delivery_succeeded ⟨1, "USD/NGN", 850⟩ [("USD/NGN", 900)] 900
    (by decide) (by decide) (by decide)

/-- C2: over the whole lifetime of one scheduled job, whatever the fetch
results and send outcomes of its ticks, at most one notification is ever
delivered (a tick whose send returns normally removes the job, ending the
run). -/
theorem alert_delivered_at_most_once (j : Job) (i : ℕ)
    (ticks : List (Option Snapshot × SendOutcome)) :
    ((runJobFrom j i ticks).filter (fun e => e.2.2 == SendOutcome.delivered)).length ≤ 1 := by
  induction ticks generalizing i with
  | nil => simp [runJobFrom]
  | cons t rest ih =>
    obtain ⟨f, s⟩ := t
    rcases check_alerts_eq_cases j f s with hc | ⟨n, hc⟩
    · simpa [runJobFrom, hc] using ih (i + 1)
    · cases s with
      | delivered => simp [runJobFrom, hc]
      | deliveryError => simpa [runJobFrom, hc] using ih (i + 1)

/-- On snapshots whose rates are all positive and with deliveries succeeding,
a job's send attempts happen exactly at the first tick index satisfying the
spec's trigger condition, counting ticks from `i`. -/
theorem runJobFrom_delivered_fires_first (j : Job) (snaps : List Snapshot)
    (hpos : ∀ s ∈ snaps, ∀ kv ∈ s, 0 < kv.2) (i : ℕ) :
    (runJobFrom j i (snaps.map (fun s => (some s, .delivered)))).map (fun e => e.1) =
      (specFirstTriggerFrom j.pair j.threshold i snaps).toList := by
  induction snaps generalizing i with
  | nil => simp [runJobFrom, specFirstTriggerFrom]
  | cons s rest ih =>
    have hrest : ∀ s' ∈ rest, ∀ kv ∈ s', 0 < kv.2 :=
      fun s' h' kv hkv => hpos s' (List.mem_cons_of_mem _ h') kv hkv
    cases hd : dictGet s j.pair with
    | none =>
      have hca : check_alerts j (some s) .delivered = (false, none) := by
        simp [check_alerts, hd]
      simp [runJobFrom, hca, specFirstTriggerFrom, specTrigger, hd, ih hrest (i + 1)]
    | some r =>
      have hr : 0 < r := by
        obtain ⟨kv, hkv, hkvr⟩ := dictGet_mem s j.pair r hd
        exact hkvr ▸ hpos s (List.mem_cons_self _ _) kv hkv
      by_cases hT : j.threshold ≤ r
      · have hca : check_alerts j (some s) .delivered =
            (true, some (⟨j.user_id, j.pair, r, j.threshold⟩, .delivered)) := by
          simp [check_alerts, hd, hT, ne_of_gt hr]
        simp [runJobFrom, hca, specFirstTriggerFrom, specTrigger, hd, hT]
      · have hca : check_alerts j (some s) .delivered = (false, none) := by
          simp [check_alerts, hd, hT]
        simp [runJobFrom, hca, specFirstTriggerFrom, specTrigger, hd, hT, ih hrest (i + 1)]

/-- C1: for any scheduled alert and any sequence of rate snapshots (rates
positive, as the data model requires) observed on successive ticks with
deliveries succeeding, the engine sends the notification exactly on the
first tick whose snapshot contains the alert's pair with a rate `≥`
threshold (non-strict), and on no other tick — in particular never earlier. -/
theorem alert_fires_exactly_on_first_trigger_tick (chat_id : ℕ) (pair : String) (T : ℚ)
    (snaps : List Snapshot) (hpos : ∀ s ∈ snaps, ∀ kv ∈ s, 0 < kv.2) :
    (runJobFrom ⟨chat_id, pair, T⟩ 0
        (snaps.map (fun s => (some s, .delivered)))).map (fun e => e.1) =
      (specFirstTrigger pair T snaps).toList :=
  runJobFrom_delivered_fires_first ⟨chat_id, pair, T⟩ snaps hpos 0

/-- Witness for `alert_fires_exactly_on_first_trigger_tick`: threshold 850,
rates 820 then 860 — the single send happens on tick index 1. -/
theorem alert_fires_exactly_on_first_trigger_tick_witness :
    (runJobFrom ⟨1, "USD/NGN", 850⟩ 0
        ([[("USD/NGN", 820)], [("USD/NGN", 860)]].map (fun s => (some s, .delivered)))).map
        (fun e => e.1) =
      (specFirstTrigger "USD/NGN" 850 [[("USD/NGN", 820)], [("USD/NGN", 860)]]).toList :=
  alert_fires_exactly_on_first_trigger_tick 1 "USD/NGN" 850
    [[("USD/NGN", 820)], [("USD/NGN", 860)]] (by decide)

/-- C4 counterexample: starting from nothing, the user sets an alert at 850,
starts monitoring, replaces the alert with one at 900 and starts monitoring
again.  The superseded job is still scheduled (two jobs are active), and on
a later tick with rate 860 — which does *not* meet the new threshold 900 —
the old job sends a notification quoting the stale threshold 850, refuting
"the superseded scheduled job produces zero further ticks". -/
theorem stale_job_fires_after_replacement_cex :
    (runEvents ⟨none, []⟩
        [.alertMsg ["/alert", "USD/NGN", "850"], .scheduleBtn 1,
         .alertMsg ["/alert", "USD/NGN", "900"], .scheduleBtn 1]).jobs =
      [⟨1, "USD/NGN", 850⟩, ⟨1, "USD/NGN", 900⟩] ∧
    check_alerts ⟨1, "USD/NGN", 850⟩ (some [("USD/NGN", 860)]) .delivered =
      (true, some (⟨1, "USD/NGN", 860, 850⟩, .delivered)) := by decide

/-- C4 amended: replacing an armed alert does not cancel anything — after a
new `/alert` plus another press of "Start Alert Monitoring", the superseded
job remains scheduled with the threshold captured at its creation, and any
later tick of it whose rate meets that stale threshold still sends a
notification built from the stale data. -/
theorem superseded_job_remains_scheduled (chat_id : ℕ) (st : BotState) (p : String) (t₁ : ℚ)
    (w : List String) (h : st.userAlert = some (p, t₁)) :
    ⟨chat_id, p, t₁⟩ ∈
      (runEvents st [.scheduleBtn chat_id, .alertMsg w, .scheduleBtn chat_id]).jobs := by
  simp only [runEvents, List.foldl_cons, List.foldl_nil, stepEvent, scheduleAlert, h]
  cases ha : (alertCmd w (some (p, t₁))).1 with
  | none => simp [scheduleAlert, ha]
  | some a =>
    obtain ⟨p₂, t₂⟩ := a
    simp [scheduleAlert, ha]

/-- Witness for `superseded_job_remains_scheduled`: the job armed at 850
survives its replacement by an alert at 900. -/
theorem superseded_job_remains_scheduled_witness :
    ⟨1, "USD/NGN", 850⟩ ∈
      (runEvents ⟨some ("USD/NGN", 850), []⟩
        [.scheduleBtn 1, .alertMsg ["/alert", "USD/NGN", "900"], .scheduleBtn 1]).jobs :=
  superseded_job_remains_scheduled 1 ⟨some ("USD/NGN", 850), []⟩ "USD/NGN" 850
    ["/alert", "USD/NGN", "900"] rfl

/-- C8 counterexample: a provider response that parses but lacks an `"NGN"`
rate makes `fetch_exchange_rates` raise an uncaught `TypeError` (from
`"N/A" / rates.get("GBP", 1)`) instead of returning a failure indicator or a
snapshot, refuting "never raises instead of signalling failure". -/
theorem fetch_raises_when_ngn_missing_cex :
    fetch_exchange_rates (.ok [("GBP", 2), ("EUR", 4)]) = .error .typeError := rfl

/-- C8 amended: the fetch returns the failure indicator `None` exactly on a
caught request error; on a response whose rates contain a numeric `"NGN"`
value and whose `"GBP"`/`"EUR"` values (defaulting to 1 when absent) are
nonzero, it returns a complete snapshot of exactly the three listed pairs —
never a partial one — but it does not validate positivity (the rates are
whatever the arithmetic yields), and a response without `"NGN"` raises an
uncaught `TypeError` (a zero `"GBP"`/`"EUR"` an uncaught
`ZeroDivisionError`) instead of signalling failure. -/
theorem fetch_shape_characterization (rates : List (String × ℚ)) (n : ℚ)
    (hn : dictGet rates "NGN" = some n)
    (hg : (dictGet rates "GBP").getD 1 ≠ 0)
    (he : (dictGet rates "EUR").getD 1 ≠ 0) :
    fetch_exchange_rates .requestError = .ok none ∧
    fetch_exchange_rates (.ok rates) =
      .ok (some [("USD/NGN", n),
                 ("GBP/NGN", n / (dictGet rates "GBP").getD 1),
                 ("EUR/NGN", n / (dictGet rates "EUR").getD 1)]) := by
  refine ⟨rfl, ?_⟩
  simp only [fetch_exchange_rates, hn]
  rw [if_neg hg, if_neg he]

/-- Witness for `fetch_shape_characterization` on rates
`{"NGN": 800, "GBP": 2, "EUR": 4}`. -/
theorem fetch_shape_characterization_witness :
    fetch_exchange_rates .requestError = .ok none ∧
    fetch_exchange_rates (.ok [("NGN", 800), ("GBP", 2), ("EUR", 4)]) =
      .ok (some [("USD/NGN", 800), ("GBP/NGN", (800 : ℚ) / 2), ("EUR/NGN", (800 : ℚ) / 4)]) :=
  fetch_shape_characterization [("NGN", 800), ("GBP", 2), ("EUR", 4)] 800
    (by decide) (by decide) (by decide)

/-- Every outcome of `fetch_exchange_rates`: the `None` failure indicator, an
uncaught exception, or a snapshot with exactly the keys `USD/NGN`, `GBP/NGN`,
`EUR/NGN`. -/
theorem fetch_exchange_rates_cases (pr : ProviderResult) :
    fetch_exchange_rates pr = .ok none ∨
    (∃ e, fetch_exchange_rates pr = .error e) ∨
    (∃ a b c, fetch_exchange_rates pr =
      .ok (some [("USD/NGN", a), ("GBP/NGN", b), ("EUR/NGN", c)])) := by
  cases pr with
  | requestError => exact .inl rfl
  | ok rates =>
    cases hn : dictGet rates "NGN" with
    | none => exact .inr (.inl ⟨.typeError, by simp [fetch_exchange_rates, hn]⟩)
    | some n =>
      by_cases hg : (dictGet rates "GBP").getD 1 = 0
      · exact .inr (.inl ⟨.zeroDivisionError, by simp [fetch_exchange_rates, hn, hg]⟩)
      · by_cases he : (dictGet rates "EUR").getD 1 = 0
        · exact .inr (.inl ⟨.zeroDivisionError, by simp [fetch_exchange_rates, hn, hg, he]⟩)
        · refine .inr (.inr ⟨n, n / (dictGet rates "GBP").getD 1,
            n / (dictGet rates "EUR").getD 1, ?_⟩)
          simp only [fetch_exchange_rates, hn]
          rw [if_neg hg, if_neg he]

/-- A key different from the three produced pair names is absent from every
snapshot `fetch_exchange_rates` builds. -/
theorem dictGet_triple_of_ne (a b c : ℚ) (p : String)
    (h1 : p ≠ "USD/NGN") (h2 : p ≠ "GBP/NGN") (h3 : p ≠ "EUR/NGN") :
    dictGet [("USD/NGN", a), ("GBP/NGN", b), ("EUR/NGN", c)] p = none := by
  have e1 : ("USD/NGN" == p) = false := beq_eq_false_iff_ne.mpr (Ne.symm h1)
  have e2 : ("GBP/NGN" == p) = false := beq_eq_false_iff_ne.mpr (Ne.symm h2)
  have e3 : ("EUR/NGN" == p) = false := beq_eq_false_iff_ne.mpr (Ne.symm h3)
  simp [dictGet, List.find?, e1, e2, e3]

/-- C10: an alert whose (uppercased) pair is none of `USD/NGN`, `GBP/NGN`,
`EUR/NGN` is accepted by `/alert` without error and stored, yet a job
scheduled for it can never trigger: whatever the provider returns on each
tick, the pair is absent from every snapshot the fetch builds, so no send is
ever attempted. -/
theorem unknown_pair_accepted_but_never_fires (chat_id : ℕ) (p w0 ws : String) (t q : ℚ)
    (ua : Option (String × ℚ)) (env : List (ProviderResult × SendOutcome))
    (hq : parseFloat ws = some q)
    (h1 : upperStr p ≠ "USD/NGN") (h2 : upperStr p ≠ "GBP/NGN")
    (h3 : upperStr p ≠ "EUR/NGN") :
    alertCmd [w0, p, ws] ua = (some (upperStr p, q), .set (upperStr p) q) ∧
    runJobLive ⟨chat_id, upperStr p, t⟩ env = [] := by
  constructor
  · simp [alertCmd, hq]
  · induction env with
    | nil => rfl
    | cons e rest ih =>
      obtain ⟨pr, s⟩ := e
      rcases fetch_exchange_rates_cases pr with hc | ⟨err, hc⟩ | ⟨a, b, c, hc⟩
      · simpa [runJobLive, tickLive, hc, check_alerts] using ih
      · simpa [runJobLive, tickLive, hc] using ih
      · simpa [runJobLive, tickLive, hc, check_alerts,
          dictGet_triple_of_ne a b c _ h1 h2 h3] using ih

/-- Witness for `unknown_pair_accepted_but_never_fires` with pair
`abc/xyz` over one successful and one failing provider interaction. -/
theorem unknown_pair_accepted_but_never_fires_witness :
    alertCmd ["/alert", "abc/xyz", "5"] none =
      (some (upperStr "abc/xyz", 5), .set (upperStr "abc/xyz") 5) ∧
    runJobLive ⟨1, upperStr "abc/xyz", 5⟩
      [(.ok [("NGN", 800)], .delivered), (.requestError, .delivered)] = [] :=
  unknown_pair_accepted_but_never_fires 1 "abc/xyz" "/alert" "5" 5 5 none
    [(.ok [("NGN", 800)], .delivered), (.requestError, .delivered)]
    (by decide) (by decide) (by decide) (by decide)

end TelBot
